import Mathlib

/-!
# Receipt verification (`functions.go`, package `payment`)

A shallow embedding of `VerifyReceipt` and `stringToTime`.

Everything the Go function obtains from outside the process is an explicit
input of the model, collected in `World`: the outcome of loading the
environment file and of the Firestore bootstrap, the two environment
variables, the decoded bodies of the two HTTP responses (or a transport
error), whether the Firestore `Get` and `Set` calls report an error, the clock
and the result of `time.Parse`.  The persistent store is the explicit
`Ledger` state.  The result records, besides the returned value, the ledger
left behind, the HTTP requests sent and the store operations issued.

`log.Fatal` ends the process (`os.Exit(1)`); the statements written after it
in the source are never executed.  It is modelled as the outcome
`Outcome.fatal` carrying the logged message.
-/

namespace Payment

/-! ## Constants -/

/-- The constant `SANDBOX_URL`. -/
def SANDBOX_URL : String := "https://sandbox.itunes.apple.com/verifyReceipt"

/-- The constant `PRODUCTION_URL` (declared in the source, never used). -/
def PRODUCTION_URL : String := "https://buy.itunes.apple.com/verifyReceipt"

/-- The constant `LAYOUT`, the layout handed to `time.Parse`. -/
def LAYOUT : String := "2006-01-02 15:04:05"

/-! ## Data model -/

/-- The struct `Request`: the body posted to the verification endpoint. -/
structure Request where
  ReceiptData : String
  Password : String
  ExcludeOldTransactions : Bool
deriving DecidableEq, Repr

/-- One element of `VerifyResponse.Receipt.InApp`; only the two fields that
`VerifyReceipt` reads are kept. -/
structure InAppRecord where
  TransactionID : String
  ExpiresDate : String
deriving DecidableEq, Repr

/-- The part of `VerifyResponse.Receipt` that `VerifyReceipt` reads. -/
structure Receipt where
  BundleID : String
  InApp : List InAppRecord
deriving DecidableEq, Repr

/-- The struct `VerifyResponse`, restricted to the fields that `VerifyReceipt`
reads (`Status`, `Receipt.BundleID`, `Receipt.InApp`).  A body that fails to
decode leaves the zero value, which is a value of this type as well. -/
structure VerifyResponse where
  Status : Int
  Receipt : Receipt
deriving DecidableEq, Repr

/-- The struct `VerifyResult`: the verdict serialised to the caller. -/
structure VerifyResult where
  Code : Int
  Message : String
deriving DecidableEq, Repr

/-- A dynamically typed Firestore field value (`interface{}`): a string, or
a value of any other dynamic type. -/
inductive FieldValue where
  | str (s : String)
  | other (tag : Nat)
deriving DecidableEq, Repr

/-- A Firestore document, `map[string]interface{}`, as an association list. -/
abbrev Doc := List (String × FieldValue)

/-- The collection `Receipt`: documents keyed by the user id. -/
abbrev Ledger := List (String × Doc)

/-- Map indexing `data[key]`; `none` is the nil interface of a missing key. -/
def fieldOf : Doc → String → Option FieldValue
  | [], _ => none
  | (k, v) :: rest, key => if k = key then some v else fieldOf rest key

/-- The document stored under `uid`, `none` when there is none
(`field.Data()` is nil). -/
def ledgerGet : Ledger → String → Option Doc
  | [], _ => none
  | (k, d) :: rest, uid => if k = uid then some d else ledgerGet rest uid

/-- The ledger without the document of `uid`. -/
def ledgerErase : Ledger → String → Ledger
  | [], _ => []
  | (k, d) :: rest, uid =>
    if k = uid then ledgerErase rest uid else (k, d) :: ledgerErase rest uid

/-- The effect of `Doc(uid).Set(ctx, doc)` without merge options: the document
of `uid` is replaced as a whole, the other documents are kept. -/
def ledgerSet (ledger : Ledger) (uid : String) (doc : Doc) : Ledger :=
  (uid, doc) :: ledgerErase ledger uid

/-- An instant, as an integer offset from the zero value of `time.Time`
(seconds in the sample inputs); only the order of instants is used. -/
abbrev Time := Int

/-- The zero value `time.Time{}`, returned by `time.Parse` with an error. -/
def zeroTime : Time := 0

/-- The method `now.Before(u)`. -/
def Before (t u : Time) : Bool := decide (t < u)

/-- The operator `<` of Go on two strings: lexicographic comparison, element by
element.  Go compares bytes; on the UTF-8 strings produced by the JSON decoder
that is the order of the code points compared here. -/
def stringLess (a b : String) : Bool := decide (a.toList < b.toList)

/-- An outbound `http.Post(url, contentType, body)`. -/
structure HttpRequest where
  url : String
  contentType : String
  body : Request
deriving DecidableEq, Repr

/-- A call on the Firestore document of a user. -/
inductive StoreOp where
  | get (uid : String)
  | set (uid : String) (doc : Doc)
deriving DecidableEq, Repr

/-- How a call of `VerifyReceipt` ends. -/
inductive Outcome where
  /-- The function returns the buffer holding the serialised verdict. -/
  | returned (v : VerifyResult)
  /-- The process is ended by `log.Fatal`, which logged `msg`. -/
  | fatal (msg : String)
  /-- The process panics: `app.Firestore` is called on the nil `app` left by a
  failed `firebase.NewApp`, whose error is overwritten unchecked. -/
  | panicked
deriving DecidableEq, Repr

/-- What one call of `VerifyReceipt` receives from outside the process. -/
structure World where
  /-- The call `godotenv.Load()` returns an error. -/
  dotenvErr : Bool
  /-- The call `firebase.NewApp` returns an error (and a nil app). -/
  newAppErr : Bool
  /-- The error returned by `app.Firestore(ctx)`, if any. -/
  firestoreErr : Option String
  /-- The value of `os.Getenv("PASSWORD")`. -/
  PASSWORD : String
  /-- The value of `os.Getenv("BUNDLE_ID")`. -/
  BUNDLE_ID : String
  /-- The first `http.Post`: the decoded body, or `none` for an error. -/
  post : Option VerifyResponse
  /-- The second `http.Post` (retry): the decoded body, or `none` for an error. -/
  postRetry : Option VerifyResponse
  /-- The call `Doc(uid).Get(ctx)` returns an error.  Whether the client
  library reports a missing document as such an error is left to this input. -/
  getErr : Bool
  /-- The call `Doc(uid).Set(ctx, ...)` returns an error. -/
  setErr : Bool
  /-- The value of `time.Now()`. -/
  now : Time
  /-- The function `time.Parse(layout, value)`; `none` stands for an error. -/
  timeParse : String → String → Option Time

/-- What a call of `VerifyReceipt` leaves behind. -/
structure Result where
  outcome : Outcome
  /-- The collection `Receipt` after the call. -/
  ledger : Ledger
  /-- The requests posted, in order. -/
  requests : List HttpRequest
  /-- The store calls issued, in order. -/
  storeOps : List StoreOp
deriving DecidableEq, Repr

/-! ## The code -/

/-- The function `stringToTime`: the error of `time.Parse` is dropped, so an
unparsable string yields the zero time. -/
def stringToTime (w : World) (str : String) : Time :=
  match w.timeParse LAYOUT str with
  | some t => t
  | none => zeroTime

/-- The selection loop of `VerifyReceipt` (lines 173-180): starting from two
empty strings, a record replaces the current pair whenever the current
transaction id is strictly less than the id of the record. -/
def selectLatest (records : List InAppRecord) : String × String :=
  records.foldl
    (fun latest v =>
      if stringLess latest.1 v.TransactionID then (v.TransactionID, v.ExpiresDate) else latest)
    ("", "")

/-- The test `data != nil && data["transactionId"] == latest_transaction_id`
(line 193): an interface value equals a string exactly when it holds that
string. -/
def alreadyRegistered (data : Option Doc) (latest_transaction_id : String) : Bool :=
  match data with
  | none => false
  | some d => decide (fieldOf d "transactionId" = some (FieldValue.str latest_transaction_id))

/-- The document written by `Set` (lines 199-202). -/
def receiptDoc (uid latest_transaction_id : String) : Doc :=
  [("uid", FieldValue.str uid), ("transactionId", FieldValue.str latest_transaction_id)]

/-- The verdict built on success (lines 215-217 and 256-258). -/
def successResult : VerifyResult := { Code := 200, Message := "" }

/-- The verdict built at the end of the function (lines 270-272). -/
def failureResult : VerifyResult := { Code := 400, Message := "Faild to verify reciept." }

/-- The body of `case 0` once the bundle id matched (lines 172-223).
A `Set` that reports an error is taken to have written nothing. -/
def primaryPath (w : World) (ledger : Ledger) (uid : String)
    (verify_response : VerifyResponse) (sent : List HttpRequest) : Result :=
  let latest := selectLatest verify_response.Receipt.InApp
  let latest_transaction_id := latest.1
  let latest_expires_date := latest.2
  if w.getErr then
    { outcome := Outcome.fatal "Faild to get transactionId", ledger := ledger,
      requests := sent, storeOps := [StoreOp.get uid] }
  else if alreadyRegistered (ledgerGet ledger uid) latest_transaction_id then
    { outcome := Outcome.fatal "This receipt is already registed.", ledger := ledger,
      requests := sent, storeOps := [StoreOp.get uid] }
  else
    let doc := receiptDoc uid latest_transaction_id
    let ops := [StoreOp.get uid, StoreOp.set uid doc]
    if w.setErr then
      { outcome := Outcome.fatal "Failed to Add TransactionID.", ledger := ledger,
        requests := sent, storeOps := ops }
    else if Before w.now (stringToTime w latest_expires_date) then
      { outcome := Outcome.fatal "This receipt is out of date.",
        ledger := ledgerSet ledger uid doc, requests := sent, storeOps := ops }
    else
      { outcome := Outcome.returned successResult,
        ledger := ledgerSet ledger uid doc, requests := sent, storeOps := ops }

/-- The body of `case 21007` (lines 227-266): the request is posted again to
`SANDBOX_URL`; status 0 with the expected bundle id returns the success
verdict at once, everything else leaves the switch. -/
def retryPath (w : World) (ledger : Ledger) (request : HttpRequest) : Result :=
  let sent := [request, request]
  match w.postRetry with
  | none =>
    { outcome := Outcome.fatal "Post request error occured.", ledger := ledger,
      requests := sent, storeOps := [] }
  | some verify_response_retry =>
    if verify_response_retry.Status = 0 then
      if verify_response_retry.Receipt.BundleID = w.BUNDLE_ID then
        { outcome := Outcome.returned successResult, ledger := ledger,
          requests := sent, storeOps := [] }
      else
        { outcome := Outcome.returned failureResult, ledger := ledger,
          requests := sent, storeOps := [] }
    else
      { outcome := Outcome.returned failureResult, ledger := ledger,
        requests := sent, storeOps := [] }

/-- The function `VerifyReceipt(uid, data)`, run in world `w` on the store
contents `ledger`. -/
def VerifyReceipt (w : World) (ledger : Ledger) (uid data : String) : Result :=
  if w.dotenvErr then
    { outcome := Outcome.fatal "Error loading .env file", ledger := ledger,
      requests := [], storeOps := [] }
  else if w.newAppErr then
    { outcome := Outcome.panicked, ledger := ledger, requests := [], storeOps := [] }
  else
    match w.firestoreErr with
    | some e => { outcome := Outcome.fatal e, ledger := ledger, requests := [], storeOps := [] }
    | none =>
      let reqBody : Request :=
        { ReceiptData := data, Password := w.PASSWORD, ExcludeOldTransactions := true }
      let request : HttpRequest :=
        { url := SANDBOX_URL, contentType := "application/json", body := reqBody }
      match w.post with
      | none =>
        { outcome := Outcome.fatal "Post request error occured.", ledger := ledger,
          requests := [request], storeOps := [] }
      | some verify_response =>
        if verify_response.Status = 0 then
          if verify_response.Receipt.BundleID = w.BUNDLE_ID then
            primaryPath w ledger uid verify_response [request]
          else
            { outcome := Outcome.returned failureResult, ledger := ledger,
              requests := [request], storeOps := [] }
        else if verify_response.Status = 21007 then
          retryPath w ledger request
        else
          { outcome := Outcome.returned failureResult, ledger := ledger,
            requests := [request], storeOps := [] }

/-- The bootstrap of the call (environment file, Firebase app, Firestore
client) went through, so the first request is posted. -/
def World.bootOk (w : World) : Prop :=
  w.dotenvErr = false ∧ w.newAppErr = false ∧ w.firestoreErr = none

instance (w : World) : Decidable w.bootOk := by
  unfold World.bootOk; infer_instance

/-- The request that `VerifyReceipt` posts. -/
def requestOf (w : World) (data : String) : HttpRequest :=
  { url := SANDBOX_URL, contentType := "application/json",
    body := { ReceiptData := data, Password := w.PASSWORD, ExcludeOldTransactions := true } }

/-- The code of the verdict a call returned; `none` when the call ended the
process instead of returning. -/
def Outcome.code : Outcome → Option Int
  | Outcome.returned v => some v.Code
  | Outcome.fatal _ => none
  | Outcome.panicked => none

/-- Seconds from the zero time to 2020-01-01 00:00:00 UTC. -/
def t2020 : Time := 63713433600

/-- Seconds from the zero time to 2026-11-02 00:00:00 UTC. -/
def t2026 : Time := 63929174400

/-- A parser that knows two timestamps in the layout of `LAYOUT`. -/
def sampleParse (layout value : String) : Option Time :=
  if layout = LAYOUT ∧ value = "2020-01-01 00:00:00" then some t2020
  else if layout = LAYOUT ∧ value = "2030-01-01 00:00:00" then some (t2020 + 315619200)
  else none

/-- A world in which every external call succeeds, the clock shows `t2026`,
the endpoint answers the first request with `r` and a retry with `r2`. -/
def sampleWorld (r r2 : VerifyResponse) : World :=
  { dotenvErr := false, newAppErr := false, firestoreErr := none,
    PASSWORD := "secret", BUNDLE_ID := "com.motion.app",
    post := some r, postRetry := some r2, getErr := false, setErr := false,
    now := t2026, timeParse := sampleParse }

/-- A successful response for this application with one purchase record,
transaction `20`, expired in 2020. -/
def expiredResponse : VerifyResponse :=
  { Status := 0,
    Receipt := { BundleID := "com.motion.app",
                 InApp := [{ TransactionID := "20", ExpiresDate := "2020-01-01 00:00:00" }] } }

/-- A successful response for this application without purchase records. -/
def emptyResponse : VerifyResponse :=
  { Status := 0, Receipt := { BundleID := "com.motion.app", InApp := [] } }

/-- A successful response issued for another application. -/
def foreignResponse : VerifyResponse :=
  { Status := 0,
    Receipt := { BundleID := "org.example.other",
                 InApp := [{ TransactionID := "20", ExpiresDate := "2030-01-01 00:00:00" }] } }

/-- The answer "sandbox receipt sent to the production validator". -/
def wrongEnvResponse : VerifyResponse :=
  { Status := 21007, Receipt := { BundleID := "", InApp := [] } }

/-- The answer "malformed receipt data" (status 21002). -/
def malformedResponse : VerifyResponse :=
  { Status := 21002, Receipt := { BundleID := "", InApp := [] } }

/-- Two purchase records whose ids compare differently as strings and as
numbers. -/
def twoRecords : List InAppRecord :=
  [{ TransactionID := "100", ExpiresDate := "2030-01-01 00:00:00" },
   { TransactionID := "20", ExpiresDate := "2020-01-01 00:00:00" }]

/-- The first request is answered with status 21002. -/
def rejectedWorld : World := sampleWorld malformedResponse wrongEnvResponse

/-- The first request is answered with a receipt of another application. -/
def foreignWorld : World := sampleWorld foreignResponse wrongEnvResponse

/-- The first request is answered with 21007, the retry with a receipt of
another application. -/
def retryForeignWorld : World := sampleWorld wrongEnvResponse foreignResponse

/-- The first request is answered with 21007, the retry with a receipt of this
application. -/
def retryOkWorld : World := sampleWorld wrongEnvResponse expiredResponse

/-- The first request is answered with 21007, the retry with status 21002. -/
def retryFailWorld : World := sampleWorld wrongEnvResponse malformedResponse

/-- The first request is answered with the receipt `expiredResponse`. -/
def purchaseWorld : World := sampleWorld expiredResponse malformedResponse

/-- The first request is answered with the receipt `emptyResponse`. -/
def emptyWorld : World := sampleWorld emptyResponse malformedResponse

/-- A successful response for this application with one purchase record,
transaction `20`, valid until 2030. -/
def validResponse : VerifyResponse :=
  { Status := 0,
    Receipt := { BundleID := "com.motion.app",
                 InApp := [{ TransactionID := "20", ExpiresDate := "2030-01-01 00:00:00" }] } }

/-- The first request is answered with the receipt `validResponse`. -/
def validWorld : World := sampleWorld validResponse malformedResponse

/-- A ledger in which user `u` last redeemed transaction `7` and user `v`
transaction `20`. -/
def sampleLedger : Ledger := [("u", receiptDoc "u" "7"), ("v", receiptDoc "v" "20")]

/-! ## Lemmas on the order of strings and on the ledger -/

theorem stringLess_iff (a b : String) : stringLess a b = true ↔ a < b := by
  simp [stringLess, String.lt_iff_toList_lt]

theorem empty_le (s : String) : "" ≤ s := by
  rw [String.le_iff_toList_le]; simp

/-- The loop of `selectLatest`, started from an arbitrary pair. -/
theorem selectLoop_spec (records : List InAppRecord) :
    ∀ acc : String × String,
      let out := records.foldl
        (fun latest v =>
          if stringLess latest.1 v.TransactionID then (v.TransactionID, v.ExpiresDate)
          else latest) acc
      acc.1 ≤ out.1 ∧ (∀ r ∈ records, r.TransactionID ≤ out.1) ∧
        (out.1 = acc.1 ∨ ∃ r ∈ records, r.TransactionID = out.1) := by
  induction records with
  | nil => intro acc; simp
  | cons v rest ih =>
    intro acc
    simp only [List.foldl_cons]
    by_cases hlt : stringLess acc.1 v.TransactionID = true
    · have h := ih (v.TransactionID, v.ExpiresDate)
      simp only [hlt, if_true] at h ⊢
      obtain ⟨h1, h2, h3⟩ := h
      have hacc : acc.1 < v.TransactionID := (stringLess_iff _ _).1 hlt
      refine ⟨le_trans (le_of_lt hacc) h1, ?_, ?_⟩
      · intro r hr
        rcases List.mem_cons.1 hr with rfl | hr
        · exact h1
        · exact h2 r hr
      · right
        rcases h3 with h3 | ⟨r, hr, h3⟩
        · exact ⟨v, List.mem_cons_self _ _, h3.symm⟩
        · exact ⟨r, List.mem_cons_of_mem _ hr, h3⟩
    · have h := ih acc
      have hnlt : ¬ acc.1 < v.TransactionID := fun hh => hlt ((stringLess_iff _ _).2 hh)
      simp only [hlt] at h ⊢
      obtain ⟨h1, h2, h3⟩ := h
      refine ⟨h1, ?_, ?_⟩
      · intro r hr
        rcases List.mem_cons.1 hr with rfl | hr
        · exact le_trans (not_lt.1 hnlt) h1
        · exact h2 r hr
      · rcases h3 with h3 | ⟨r, hr, h3⟩
        · exact Or.inl h3
        · exact Or.inr ⟨r, List.mem_cons_of_mem _ hr, h3⟩

theorem ledgerGet_set_self (ledger : Ledger) (uid : String) (doc : Doc) :
    ledgerGet (ledgerSet ledger uid doc) uid = some doc := by
  simp [ledgerSet, ledgerGet]

theorem alreadyRegistered_receiptDoc (uid t : String) :
    alreadyRegistered (some (receiptDoc uid t)) t = true := by
  simp [alreadyRegistered, receiptDoc, fieldOf]

/-- The negation of the test of line 193, in the words "the selected id
differs from the id stored for the user, or nothing is stored". -/
theorem alreadyRegistered_eq_false (ledger : Ledger) (uid t : String)
    (h : ∀ d, ledgerGet ledger uid = some d →
      fieldOf d "transactionId" ≠ some (FieldValue.str t)) :
    alreadyRegistered (ledgerGet ledger uid) t = false := by
  cases hg : ledgerGet ledger uid with
  | none => rfl
  | some d => simpa [alreadyRegistered] using h d hg

/-! ## Lemmas on the control flow of `VerifyReceipt` -/

/-- After a successful bootstrap and a first response `r`, the call is the
switch on `r.Status` (lines 165-278). -/
theorem VerifyReceipt_of_response (w : World) (ledger : Ledger) (uid data : String)
    (r : VerifyResponse) (hb : w.bootOk) (hp : w.post = some r) :
    VerifyReceipt w ledger uid data =
      if r.Status = 0 then
        if r.Receipt.BundleID = w.BUNDLE_ID then
          primaryPath w ledger uid r [requestOf w data]
        else
          { outcome := Outcome.returned failureResult, ledger := ledger,
            requests := [requestOf w data], storeOps := [] }
      else if r.Status = 21007 then
        retryPath w ledger (requestOf w data)
      else
        { outcome := Outcome.returned failureResult, ledger := ledger,
          requests := [requestOf w data], storeOps := [] } := by
  obtain ⟨h1, h2, h3⟩ := hb
  simp [VerifyReceipt, h1, h2, h3, hp, requestOf]

/-- The primary path when the stored id equals the selected one. -/
theorem primaryPath_duplicate (w : World) (ledger : Ledger) (uid : String)
    (r : VerifyResponse) (sent : List HttpRequest) (hg : w.getErr = false)
    (hd : alreadyRegistered (ledgerGet ledger uid) (selectLatest r.Receipt.InApp).1 = true) :
    primaryPath w ledger uid r sent =
      { outcome := Outcome.fatal "This receipt is already registed.", ledger := ledger,
        requests := sent, storeOps := [StoreOp.get uid] } := by
  simp [primaryPath, hg, hd]

/-- The primary path when the selected id is not the stored one and both store
calls succeed: the document is written, then the expiry check decides between
the success verdict and `log.Fatal`. -/
theorem primaryPath_novel (w : World) (ledger : Ledger) (uid : String)
    (r : VerifyResponse) (sent : List HttpRequest) (hg : w.getErr = false)
    (hs : w.setErr = false)
    (hn : alreadyRegistered (ledgerGet ledger uid) (selectLatest r.Receipt.InApp).1 = false) :
    (primaryPath w ledger uid r sent).ledger
        = ledgerSet ledger uid (receiptDoc uid (selectLatest r.Receipt.InApp).1) ∧
    (primaryPath w ledger uid r sent).storeOps
        = [StoreOp.get uid,
           StoreOp.set uid (receiptDoc uid (selectLatest r.Receipt.InApp).1)] ∧
    (primaryPath w ledger uid r sent).requests = sent ∧
    ((primaryPath w ledger uid r sent).outcome = Outcome.returned successResult ∨
      (primaryPath w ledger uid r sent).outcome
        = Outcome.fatal "This receipt is out of date.") := by
  by_cases hbefore :
      Before w.now (stringToTime w (selectLatest r.Receipt.InApp).2) = true
  · simp [primaryPath, hg, hs, hn, hbefore]
  · simp [primaryPath, hg, hs, hn, hbefore]

/-- The primary path past the ledger write: the expiry check of lines 209-212
decides the outcome. -/
theorem primaryPath_novel_outcome (w : World) (ledger : Ledger) (uid : String)
    (r : VerifyResponse) (sent : List HttpRequest) (hg : w.getErr = false)
    (hs : w.setErr = false)
    (hn : alreadyRegistered (ledgerGet ledger uid) (selectLatest r.Receipt.InApp).1 = false) :
    (primaryPath w ledger uid r sent).outcome
      = if Before w.now (stringToTime w (selectLatest r.Receipt.InApp).2) = true then
          Outcome.fatal "This receipt is out of date."
        else Outcome.returned successResult := by
  by_cases hbefore :
      Before w.now (stringToTime w (selectLatest r.Receipt.InApp).2) = true
  · simp [primaryPath, hg, hs, hn, hbefore]
  · simp [primaryPath, hg, hs, hn, hbefore]

/-- The primary path never returns the failure verdict. -/
theorem primaryPath_code_ne_400 (w : World) (ledger : Ledger) (uid : String)
    (r : VerifyResponse) (sent : List HttpRequest) :
    (primaryPath w ledger uid r sent).outcome.code ≠ some 400 := by
  unfold primaryPath
  simp only
  split_ifs <;> simp [Outcome.code, successResult]

/-- Every way the primary path can end. -/
theorem primaryPath_outcomes (w : World) (ledger : Ledger) (uid : String)
    (r : VerifyResponse) (sent : List HttpRequest) :
    (primaryPath w ledger uid r sent).outcome = Outcome.returned successResult ∨
    ∃ m, (primaryPath w ledger uid r sent).outcome = Outcome.fatal m := by
  unfold primaryPath
  simp only
  split_ifs
  · exact Or.inr ⟨_, rfl⟩
  · exact Or.inr ⟨_, rfl⟩
  · exact Or.inr ⟨_, rfl⟩
  · exact Or.inr ⟨_, rfl⟩
  · exact Or.inl rfl

/-- Every way the retry path can end. -/
theorem retryPath_outcomes (w : World) (ledger : Ledger) (q : HttpRequest) :
    (retryPath w ledger q).outcome = Outcome.returned successResult ∨
    (retryPath w ledger q).outcome = Outcome.returned failureResult ∨
    ∃ m, (retryPath w ledger q).outcome = Outcome.fatal m := by
  unfold retryPath
  simp only
  split
  · exact Or.inr (Or.inr ⟨_, rfl⟩)
  · split_ifs
    · exact Or.inl rfl
    · exact Or.inr (Or.inl rfl)
    · exact Or.inr (Or.inl rfl)

/-! ## The claims -/

/-- C2: for every non-empty sequence of purchase records the selection loop
yields as `latest_transaction_id` the transaction id of one of the records,
and no record has a greater id in the lexicographic order of strings; the
order is not the numeric one: of the ids `100` and `20` it selects `20`. -/
theorem selectLatest_greatest (records : List InAppRecord) (hne : records ≠ []) :
    (∃ r ∈ records, r.TransactionID = (selectLatest records).1) ∧
    (∀ r ∈ records, r.TransactionID ≤ (selectLatest records).1) ∧
    (∀ e1 e2 : String,
      (selectLatest [{ TransactionID := "100", ExpiresDate := e1 },
        { TransactionID := "20", ExpiresDate := e2 }]).1 = "20") := by
  have h := selectLoop_spec records ("", "")
  change _ ∧ (∀ r ∈ records, r.TransactionID ≤ (selectLatest records).1) ∧
    ((selectLatest records).1 = "" ∨
      ∃ r ∈ records, r.TransactionID = (selectLatest records).1) at h
  obtain ⟨_, h2, h3⟩ := h
  refine ⟨?_, h2, ?_⟩
  · rcases h3 with h3 | h3
    · obtain ⟨r, hr⟩ := List.exists_mem_of_ne_nil records hne
      refine ⟨r, hr, ?_⟩
      have hle := h2 r hr
      rw [h3] at hle ⊢
      exact le_antisymm hle (empty_le _)
    · exact h3
  · intro e1 e2
    have h1 : stringLess "" "100" = true := by decide
    have h2 : stringLess "100" "20" = true := by decide
    simp only [selectLatest, List.foldl, h1, h2, if_true]

theorem selectLatest_greatest_witness :
    twoRecords ≠ [] ∧
    (selectLatest twoRecords).1 = "20" ∧
    "100" ≤ (selectLatest twoRecords).1 :=
  ⟨by decide, by decide,
   (selectLatest_greatest twoRecords (by decide)).2.1
     { TransactionID := "100", ExpiresDate := "2030-01-01 00:00:00" } (by decide)⟩

/-- C5: for every first response whose status is neither 0 nor 21007 and every
ledger state, `VerifyReceipt` returns the verdict with code 400, issues no
store call and leaves the ledger exactly as it was. -/
theorem other_status_rejected (w : World) (ledger : Ledger) (uid data : String)
    (r : VerifyResponse) (hb : w.bootOk) (hp : w.post = some r)
    (h0 : r.Status ≠ 0) (h7 : r.Status ≠ 21007) :
    (VerifyReceipt w ledger uid data).outcome = Outcome.returned failureResult ∧
    (VerifyReceipt w ledger uid data).outcome.code = some 400 ∧
    (VerifyReceipt w ledger uid data).ledger = ledger ∧
    (VerifyReceipt w ledger uid data).storeOps = [] := by
  rw [VerifyReceipt_of_response w ledger uid data r hb hp]
  simp [h0, h7, Outcome.code, failureResult]

theorem other_status_rejected_witness :
    rejectedWorld.bootOk ∧ rejectedWorld.post = some malformedResponse ∧
    malformedResponse.Status ≠ 0 ∧ malformedResponse.Status ≠ 21007 ∧
    (VerifyReceipt rejectedWorld sampleLedger "u" "receipt").outcome
      = Outcome.returned failureResult ∧
    (VerifyReceipt rejectedWorld sampleLedger "u" "receipt").outcome.code = some 400 ∧
    (VerifyReceipt rejectedWorld sampleLedger "u" "receipt").ledger = sampleLedger ∧
    (VerifyReceipt rejectedWorld sampleLedger "u" "receipt").storeOps = [] :=
  ⟨by decide, rfl, by decide, by decide,
   other_status_rejected rejectedWorld sampleLedger "u" "receipt" malformedResponse
     (by decide) rfl (by decide) (by decide)⟩

/-- C9: a response with status 0 whose receipt bundle id differs from the
expected one is rejected, be it the first response or the retry response after
a 21007: `VerifyReceipt` returns the verdict with code 400, issues no store
call and leaves the ledger as it was. -/
theorem foreign_bundle_rejected (w : World) (ledger : Ledger) (uid data : String)
    (hb : w.bootOk) :
    (∀ r : VerifyResponse, w.post = some r → r.Status = 0 →
      r.Receipt.BundleID ≠ w.BUNDLE_ID →
      (VerifyReceipt w ledger uid data).outcome.code = some 400 ∧
      (VerifyReceipt w ledger uid data).ledger = ledger ∧
      (VerifyReceipt w ledger uid data).storeOps = []) ∧
    (∀ r1 r2 : VerifyResponse, w.post = some r1 → r1.Status = 21007 →
      w.postRetry = some r2 → r2.Status = 0 → r2.Receipt.BundleID ≠ w.BUNDLE_ID →
      (VerifyReceipt w ledger uid data).outcome.code = some 400 ∧
      (VerifyReceipt w ledger uid data).ledger = ledger ∧
      (VerifyReceipt w ledger uid data).storeOps = []) := by
  constructor
  · intro r hp h0 hne
    rw [VerifyReceipt_of_response w ledger uid data r hb hp]
    simp [h0, hne, Outcome.code, failureResult]
  · intro r1 r2 hp h7 hp2 h0 hne
    rw [VerifyReceipt_of_response w ledger uid data r1 hb hp]
    simp [h7, retryPath, hp2, h0, hne, Outcome.code, failureResult]

theorem foreign_bundle_rejected_witness :
    (foreignWorld.bootOk ∧ foreignWorld.post = some foreignResponse ∧
      foreignResponse.Status = 0 ∧
      foreignResponse.Receipt.BundleID ≠ foreignWorld.BUNDLE_ID ∧
      (VerifyReceipt foreignWorld sampleLedger "u" "receipt").outcome.code = some 400 ∧
      (VerifyReceipt foreignWorld sampleLedger "u" "receipt").ledger = sampleLedger ∧
      (VerifyReceipt foreignWorld sampleLedger "u" "receipt").storeOps = []) ∧
    (retryForeignWorld.bootOk ∧ retryForeignWorld.post = some wrongEnvResponse ∧
      wrongEnvResponse.Status = 21007 ∧
      retryForeignWorld.postRetry = some foreignResponse ∧
      foreignResponse.Receipt.BundleID ≠ retryForeignWorld.BUNDLE_ID ∧
      (VerifyReceipt retryForeignWorld sampleLedger "u" "receipt").outcome.code = some 400 ∧
      (VerifyReceipt retryForeignWorld sampleLedger "u" "receipt").ledger = sampleLedger ∧
      (VerifyReceipt retryForeignWorld sampleLedger "u" "receipt").storeOps = []) :=
  ⟨⟨by decide, rfl, rfl, by decide,
    (foreign_bundle_rejected foreignWorld sampleLedger "u" "receipt" (by decide)).1
      foreignResponse rfl rfl (by decide)⟩,
   ⟨by decide, rfl, rfl, rfl, by decide,
    (foreign_bundle_rejected retryForeignWorld sampleLedger "u" "receipt" (by decide)).2
      wrongEnvResponse foreignResponse rfl rfl rfl rfl (by decide)⟩⟩

/-- C10: in the retry branch (first response with status 21007) a retry
response with status 0 and the expected bundle id yields the verdict with code
200 for every ledger state, without any store call: the ledger is neither read
nor written, it is left unchanged, and the outcome is the same for any two
ledger states, in particular for one that already holds the transaction id of
the receipt. -/
theorem retry_skips_ledger (w : World) (uid data : String) (r1 r2 : VerifyResponse)
    (hb : w.bootOk) (hp : w.post = some r1) (h7 : r1.Status = 21007)
    (hp2 : w.postRetry = some r2) (h0 : r2.Status = 0)
    (hid : r2.Receipt.BundleID = w.BUNDLE_ID) :
    ∀ ledger ledger2 : Ledger,
      (VerifyReceipt w ledger uid data).outcome = Outcome.returned successResult ∧
      (VerifyReceipt w ledger uid data).outcome.code = some 200 ∧
      (VerifyReceipt w ledger uid data).storeOps = [] ∧
      (VerifyReceipt w ledger uid data).ledger = ledger ∧
      (VerifyReceipt w ledger uid data).outcome
        = (VerifyReceipt w ledger2 uid data).outcome := by
  intro ledger ledger2
  rw [VerifyReceipt_of_response w ledger uid data r1 hb hp,
    VerifyReceipt_of_response w ledger2 uid data r1 hb hp]
  simp [h7, retryPath, hp2, h0, hid, Outcome.code, successResult]

theorem retry_skips_ledger_witness :
    retryOkWorld.bootOk ∧ retryOkWorld.post = some wrongEnvResponse ∧
    wrongEnvResponse.Status = 21007 ∧ retryOkWorld.postRetry = some expiredResponse ∧
    expiredResponse.Status = 0 ∧
    expiredResponse.Receipt.BundleID = retryOkWorld.BUNDLE_ID ∧
    ledgerGet sampleLedger "v" = some (receiptDoc "v" "20") ∧
    (VerifyReceipt retryOkWorld sampleLedger "v" "receipt").outcome
      = Outcome.returned successResult ∧
    (VerifyReceipt retryOkWorld sampleLedger "v" "receipt").outcome.code = some 200 ∧
    (VerifyReceipt retryOkWorld sampleLedger "v" "receipt").storeOps = [] ∧
    (VerifyReceipt retryOkWorld sampleLedger "v" "receipt").ledger = sampleLedger ∧
    (VerifyReceipt retryOkWorld sampleLedger "v" "receipt").outcome
      = (VerifyReceipt retryOkWorld [] "v" "receipt").outcome :=
  ⟨by decide, rfl, rfl, rfl, rfl, rfl, by decide,
   retry_skips_ledger retryOkWorld "v" "receipt" wrongEnvResponse expiredResponse
     (by decide) rfl rfl rfl rfl rfl sampleLedger []⟩

/-- C7: once the first request got a response, `VerifyReceipt` has posted the
same request (same sandbox URL, same body) either once or twice: twice exactly
when the first response has status 21007; so at most two requests per call.
If the retry response does not have status 0 with the expected bundle id, the
verdict has code 400. -/
theorem retry_exactly_once (w : World) (ledger : Ledger) (uid data : String)
    (r1 : VerifyResponse) (hb : w.bootOk) (hp : w.post = some r1) :
    ((VerifyReceipt w ledger uid data).requests
        = [requestOf w data, requestOf w data] ↔ r1.Status = 21007) ∧
    ((VerifyReceipt w ledger uid data).requests = [requestOf w data] ↔ r1.Status ≠ 21007) ∧
    (requestOf w data).url = SANDBOX_URL ∧
    (VerifyReceipt w ledger uid data).requests.length ≤ 2 ∧
    (∀ r2 : VerifyResponse, r1.Status = 21007 → w.postRetry = some r2 →
      ¬ (r2.Status = 0 ∧ r2.Receipt.BundleID = w.BUNDLE_ID) →
      (VerifyReceipt w ledger uid data).outcome.code = some 400) := by
  have hreq : ∀ sent : List HttpRequest, (primaryPath w ledger uid r1 sent).requests = sent := by
    intro sent
    unfold primaryPath
    simp only
    split_ifs <;> rfl
  have hretry : (retryPath w ledger (requestOf w data)).requests
      = [requestOf w data, requestOf w data] := by
    unfold retryPath
    simp only
    split
    · rfl
    · split_ifs <;> rfl
  have hR : (VerifyReceipt w ledger uid data).requests
      = if r1.Status = 21007 then [requestOf w data, requestOf w data]
        else [requestOf w data] := by
    rw [VerifyReceipt_of_response w ledger uid data r1 hb hp]
    by_cases h7 : r1.Status = 21007
    · have h0 : r1.Status ≠ 0 := by rw [h7]; decide
      rw [if_neg h0, if_pos h7, if_pos h7]
      exact hretry
    · simp only [if_neg h7]
      by_cases h0 : r1.Status = 0
      · simp only [if_pos h0]
        by_cases hid : r1.Receipt.BundleID = w.BUNDLE_ID
        · simp only [if_pos hid]
          exact hreq _
        · simp only [if_neg hid]
      · simp only [if_neg h0]
  refine ⟨?_, ?_, rfl, ?_, ?_⟩
  · rw [hR]
    by_cases h7 : r1.Status = 21007
    · simp [h7]
    · simp [h7]
  · rw [hR]
    by_cases h7 : r1.Status = 21007
    · simp [h7]
    · simp [h7]
  · rw [hR]
    split_ifs <;> simp
  · intro r2 h7 hp2 hnot
    have h0 : r1.Status ≠ 0 := by rw [h7]; decide
    rw [VerifyReceipt_of_response w ledger uid data r1 hb hp, if_neg h0, if_pos h7]
    by_cases h20 : r2.Status = 0
    · have hne : r2.Receipt.BundleID ≠ w.BUNDLE_ID := fun h => hnot ⟨h20, h⟩
      simp [retryPath, hp2, h20, hne, Outcome.code, failureResult]
    · simp [retryPath, hp2, h20, Outcome.code, failureResult]

theorem retry_exactly_once_witness :
    retryFailWorld.bootOk ∧ retryFailWorld.post = some wrongEnvResponse ∧
    wrongEnvResponse.Status = 21007 ∧
    retryFailWorld.postRetry = some malformedResponse ∧
    (VerifyReceipt retryFailWorld sampleLedger "u" "receipt").requests
      = [requestOf retryFailWorld "receipt", requestOf retryFailWorld "receipt"] ∧
    (VerifyReceipt retryFailWorld sampleLedger "u" "receipt").requests.length ≤ 2 ∧
    (VerifyReceipt retryFailWorld sampleLedger "u" "receipt").outcome.code = some 400 :=
  ⟨by decide, rfl, rfl, rfl,
   (retry_exactly_once retryFailWorld sampleLedger "u" "receipt" wrongEnvResponse
      (by decide) rfl).1.2 rfl,
   (retry_exactly_once retryFailWorld sampleLedger "u" "receipt" wrongEnvResponse
      (by decide) rfl).2.2.2.1,
   (retry_exactly_once retryFailWorld sampleLedger "u" "receipt" wrongEnvResponse
      (by decide) rfl).2.2.2.2 malformedResponse rfl rfl (by decide)⟩

/-- C1 (as the code has it): for a first response with status 0, the expected
bundle id and a selected transaction id that differs from the one stored for
the user (or nothing stored), with both store calls succeeding, the first call
writes the selected id into the ledger and returns no verdict other than the
one with code 200 (it ends with that verdict or in the `log.Fatal` of the
expiry check); a second call for the same user with the same response on the
ledger left by the first does not return a verdict with code 400: it ends the
process with `log.Fatal("This receipt is already registed.")` and leaves the
ledger as it is. -/
theorem replay_is_fatal (w1 w2 : World) (ledger : Ledger) (uid data : String)
    (r : VerifyResponse) (hb1 : w1.bootOk) (hb2 : w2.bootOk)
    (hp1 : w1.post = some r) (hp2 : w2.post = some r) (h0 : r.Status = 0)
    (hid1 : r.Receipt.BundleID = w1.BUNDLE_ID) (hid2 : r.Receipt.BundleID = w2.BUNDLE_ID)
    (hg1 : w1.getErr = false) (hs1 : w1.setErr = false) (hg2 : w2.getErr = false)
    (hnew : ∀ d, ledgerGet ledger uid = some d →
      fieldOf d "transactionId" ≠ some (FieldValue.str (selectLatest r.Receipt.InApp).1)) :
    ((VerifyReceipt w1 ledger uid data).outcome = Outcome.returned successResult ∨
      (VerifyReceipt w1 ledger uid data).outcome
        = Outcome.fatal "This receipt is out of date.") ∧
    ledgerGet (VerifyReceipt w1 ledger uid data).ledger uid
      = some (receiptDoc uid (selectLatest r.Receipt.InApp).1) ∧
    (VerifyReceipt w2 (VerifyReceipt w1 ledger uid data).ledger uid data).outcome
      = Outcome.fatal "This receipt is already registed." ∧
    (VerifyReceipt w2 (VerifyReceipt w1 ledger uid data).ledger uid data).outcome.code
      = none ∧
    (VerifyReceipt w2 (VerifyReceipt w1 ledger uid data).ledger uid data).ledger
      = (VerifyReceipt w1 ledger uid data).ledger := by
  have hn := alreadyRegistered_eq_false ledger uid _ hnew
  obtain ⟨hl, _, _, ho⟩ := primaryPath_novel w1 ledger uid r [requestOf w1 data] hg1 hs1 hn
  have hfirst : VerifyReceipt w1 ledger uid data
      = primaryPath w1 ledger uid r [requestOf w1 data] := by
    rw [VerifyReceipt_of_response w1 ledger uid data r hb1 hp1, if_pos h0, if_pos hid1]
  have hget : ledgerGet (VerifyReceipt w1 ledger uid data).ledger uid
      = some (receiptDoc uid (selectLatest r.Receipt.InApp).1) := by
    rw [hfirst, hl]
    exact ledgerGet_set_self _ _ _
  have hdup : alreadyRegistered
      (ledgerGet (VerifyReceipt w1 ledger uid data).ledger uid)
      (selectLatest r.Receipt.InApp).1 = true := by
    rw [hget]
    exact alreadyRegistered_receiptDoc _ _
  have hsecond := primaryPath_duplicate w2 (VerifyReceipt w1 ledger uid data).ledger uid r
    [requestOf w2 data] hg2 hdup
  refine ⟨?_, hget, ?_, ?_, ?_⟩
  · rw [hfirst]
    exact ho
  · rw [VerifyReceipt_of_response w2 _ uid data r hb2 hp2, if_pos h0, if_pos hid2, hsecond]
  · rw [VerifyReceipt_of_response w2 _ uid data r hb2 hp2, if_pos h0, if_pos hid2, hsecond]
    rfl
  · rw [VerifyReceipt_of_response w2 _ uid data r hb2 hp2, if_pos h0, if_pos hid2, hsecond]

theorem replay_is_fatal_witness :
    purchaseWorld.bootOk ∧ purchaseWorld.post = some expiredResponse ∧
    expiredResponse.Status = 0 ∧
    expiredResponse.Receipt.BundleID = purchaseWorld.BUNDLE_ID ∧
    purchaseWorld.getErr = false ∧ purchaseWorld.setErr = false ∧
    ledgerGet sampleLedger "u" = some (receiptDoc "u" "7") ∧
    (selectLatest expiredResponse.Receipt.InApp).1 = "20" ∧
    ledgerGet (VerifyReceipt purchaseWorld sampleLedger "u" "receipt").ledger "u"
      = some (receiptDoc "u" "20") ∧
    (VerifyReceipt purchaseWorld
        (VerifyReceipt purchaseWorld sampleLedger "u" "receipt").ledger "u"
        "receipt").outcome = Outcome.fatal "This receipt is already registed." ∧
    (VerifyReceipt purchaseWorld
        (VerifyReceipt purchaseWorld sampleLedger "u" "receipt").ledger "u"
        "receipt").outcome.code = none ∧
    (VerifyReceipt purchaseWorld
        (VerifyReceipt purchaseWorld sampleLedger "u" "receipt").ledger "u"
        "receipt").ledger = (VerifyReceipt purchaseWorld sampleLedger "u" "receipt").ledger :=
  ⟨by decide, rfl, rfl, rfl, rfl, rfl, by decide, by decide,
   (replay_is_fatal purchaseWorld purchaseWorld sampleLedger "u" "receipt" expiredResponse
      (by decide) (by decide) rfl rfl rfl rfl rfl rfl rfl rfl (by decide)).2⟩

/-- C1 fails as stated: user `u` has transaction `7` stored, the response has
status 0, the expected bundle id and selects transaction `20`; the first call
returns the verdict with code 200, the second call on the ledger it left
returns no verdict at all, hence none with code 400. -/
theorem replay_not_400 :
    purchaseWorld.post = some expiredResponse ∧
    expiredResponse.Status = 0 ∧
    expiredResponse.Receipt.BundleID
      = purchaseWorld.BUNDLE_ID ∧
    ledgerGet sampleLedger "u" = some (receiptDoc "u" "7") ∧
    (selectLatest expiredResponse.Receipt.InApp).1 = "20" ∧
    (VerifyReceipt purchaseWorld sampleLedger "u"
        "receipt").outcome.code = some 200 ∧
    (VerifyReceipt purchaseWorld
        (VerifyReceipt purchaseWorld sampleLedger "u"
          "receipt").ledger "u" "receipt").outcome
      = Outcome.fatal "This receipt is already registed." ∧
    (VerifyReceipt purchaseWorld
        (VerifyReceipt purchaseWorld sampleLedger "u"
          "receipt").ledger "u" "receipt").outcome.code ≠ some 400 := by
  refine ⟨rfl, rfl, rfl, ?_, ?_, ?_, ?_, ?_⟩ <;> decide

/-- C3 (what the code does, against the claim): take a first response with
status 0, the expected bundle id and a selected transaction id not already
stored for the user, both store calls succeeding, whose selected expiry date
parses to the time `t`.  After `VerifyReceipt` the ledger entry of the user
holds the selected transaction id.  If `t` is not after the current time (the
receipt has expired) the call returns the verdict with code 200, not 400; if
the current time is before `t` (the receipt is still valid) the call ends in
`log.Fatal("This receipt is out of date.")`: the test of line 210 is inverted
against its own message. -/
theorem expiry_check_inverted (w : World) (ledger : Ledger) (uid data : String)
    (r : VerifyResponse) (t : Time) (hb : w.bootOk) (hp : w.post = some r)
    (h0 : r.Status = 0) (hid : r.Receipt.BundleID = w.BUNDLE_ID)
    (hg : w.getErr = false) (hs : w.setErr = false)
    (hnew : ∀ d, ledgerGet ledger uid = some d →
      fieldOf d "transactionId" ≠ some (FieldValue.str (selectLatest r.Receipt.InApp).1))
    (hparse : w.timeParse LAYOUT (selectLatest r.Receipt.InApp).2 = some t) :
    ledgerGet (VerifyReceipt w ledger uid data).ledger uid
      = some [("uid", FieldValue.str uid),
              ("transactionId", FieldValue.str (selectLatest r.Receipt.InApp).1)] ∧
    (t ≤ w.now →
      (VerifyReceipt w ledger uid data).outcome = Outcome.returned successResult ∧
      (VerifyReceipt w ledger uid data).outcome.code = some 200 ∧
      (VerifyReceipt w ledger uid data).outcome.code ≠ some 400) ∧
    (w.now < t →
      (VerifyReceipt w ledger uid data).outcome
        = Outcome.fatal "This receipt is out of date.") := by
  have hn := alreadyRegistered_eq_false ledger uid _ hnew
  have hl := (primaryPath_novel w ledger uid r [requestOf w data] hg hs hn).1
  have ho := primaryPath_novel_outcome w ledger uid r [requestOf w data] hg hs hn
  have htime : stringToTime w (selectLatest r.Receipt.InApp).2 = t := by
    simp [stringToTime, hparse]
  rw [htime] at ho
  rw [VerifyReceipt_of_response w ledger uid data r hb hp, if_pos h0, if_pos hid]
  refine ⟨?_, ?_, ?_⟩
  · rw [hl]
    exact ledgerGet_set_self _ _ _
  · intro hle
    have hnb : ¬ Before w.now t = true := by simp [Before, hle]
    rw [if_neg hnb] at ho
    rw [ho]
    exact ⟨rfl, rfl, by decide⟩
  · intro hlt
    have hbf : Before w.now t = true := by simp [Before, hlt]
    rw [if_pos hbf] at ho
    exact ho

theorem expiry_check_inverted_witness :
    (purchaseWorld.bootOk ∧ purchaseWorld.post = some expiredResponse ∧
      expiredResponse.Status = 0 ∧
      expiredResponse.Receipt.BundleID = purchaseWorld.BUNDLE_ID ∧
      purchaseWorld.getErr = false ∧ purchaseWorld.setErr = false ∧
      ledgerGet sampleLedger "u" = some (receiptDoc "u" "7") ∧
      selectLatest expiredResponse.Receipt.InApp = ("20", "2020-01-01 00:00:00") ∧
      purchaseWorld.timeParse LAYOUT "2020-01-01 00:00:00" = some t2020 ∧
      t2020 ≤ purchaseWorld.now ∧
      ledgerGet (VerifyReceipt purchaseWorld sampleLedger "u" "receipt").ledger "u"
        = some [("uid", FieldValue.str "u"), ("transactionId", FieldValue.str "20")] ∧
      (VerifyReceipt purchaseWorld sampleLedger "u" "receipt").outcome
        = Outcome.returned successResult ∧
      (VerifyReceipt purchaseWorld sampleLedger "u" "receipt").outcome.code = some 200 ∧
      (VerifyReceipt purchaseWorld sampleLedger "u" "receipt").outcome.code ≠ some 400) ∧
    (validWorld.post = some validResponse ∧
      selectLatest validResponse.Receipt.InApp = ("20", "2030-01-01 00:00:00") ∧
      validWorld.timeParse LAYOUT "2030-01-01 00:00:00" = some (t2020 + 315619200) ∧
      validWorld.now < t2020 + 315619200 ∧
      (VerifyReceipt validWorld sampleLedger "u" "receipt").outcome
        = Outcome.fatal "This receipt is out of date.") :=
  ⟨⟨by decide, rfl, rfl, rfl, rfl, rfl, by decide, by decide, by decide, by decide,
    (expiry_check_inverted purchaseWorld sampleLedger "u" "receipt" expiredResponse t2020
      (by decide) rfl rfl rfl rfl rfl (by decide) (by decide)).1,
    (expiry_check_inverted purchaseWorld sampleLedger "u" "receipt" expiredResponse t2020
      (by decide) rfl rfl rfl rfl rfl (by decide) (by decide)).2.1 (by decide)⟩,
   ⟨rfl, by decide, by decide, by decide,
    (expiry_check_inverted validWorld sampleLedger "u" "receipt" validResponse
      (t2020 + 315619200) (by decide) rfl rfl rfl rfl rfl (by decide) (by decide)).2.2
      (by decide)⟩⟩

/-- C4 (as the code has it): for a first response with status 0 and the
expected bundle id whose sequence of purchase records is empty, the selection
yields the empty string as transaction id and as expiry date, and
`VerifyReceipt` goes on as for any other selected id: it reads the ledger entry
of the user for de-duplication and returns no verdict with code 400; when both
store calls succeed and the stored id is not the empty string, it overwrites
the entry of the user with the empty transaction id. -/
theorem empty_records_not_rejected (w : World) (ledger : Ledger) (uid data : String)
    (r : VerifyResponse) (hb : w.bootOk) (hp : w.post = some r) (h0 : r.Status = 0)
    (hid : r.Receipt.BundleID = w.BUNDLE_ID) (hempty : r.Receipt.InApp = []) :
    selectLatest r.Receipt.InApp = ("", "") ∧
    (VerifyReceipt w ledger uid data).storeOps.head? = some (StoreOp.get uid) ∧
    (VerifyReceipt w ledger uid data).outcome.code ≠ some 400 ∧
    (w.getErr = false → w.setErr = false →
      (∀ d, ledgerGet ledger uid = some d →
        fieldOf d "transactionId" ≠ some (FieldValue.str "")) →
      (VerifyReceipt w ledger uid data).storeOps
        = [StoreOp.get uid, StoreOp.set uid (receiptDoc uid "")] ∧
      ledgerGet (VerifyReceipt w ledger uid data).ledger uid = some (receiptDoc uid "")) := by
  have hsel : selectLatest r.Receipt.InApp = ("", "") := by rw [hempty]; rfl
  rw [VerifyReceipt_of_response w ledger uid data r hb hp, if_pos h0, if_pos hid]
  refine ⟨hsel, ?_, ?_, ?_⟩
  · unfold primaryPath
    simp only
    split_ifs <;> rfl
  · exact primaryPath_code_ne_400 w ledger uid r _
  · intro hg hs hnew
    have hn := alreadyRegistered_eq_false ledger uid "" hnew
    have hn2 : alreadyRegistered (ledgerGet ledger uid) (selectLatest r.Receipt.InApp).1
        = false := by rw [hsel]; exact hn
    obtain ⟨hl, hops, _, _⟩ := primaryPath_novel w ledger uid r [requestOf w data] hg hs hn2
    rw [hsel] at hl hops
    refine ⟨hops, ?_⟩
    rw [hl]
    exact ledgerGet_set_self _ _ _

theorem empty_records_not_rejected_witness :
    emptyWorld.bootOk ∧ emptyWorld.post = some emptyResponse ∧
    emptyResponse.Status = 0 ∧
    emptyResponse.Receipt.BundleID = emptyWorld.BUNDLE_ID ∧
    emptyResponse.Receipt.InApp = [] ∧
    emptyWorld.getErr = false ∧ emptyWorld.setErr = false ∧
    ledgerGet sampleLedger "u" = some (receiptDoc "u" "7") ∧
    (VerifyReceipt emptyWorld sampleLedger "u" "receipt").storeOps.head?
      = some (StoreOp.get "u") ∧
    (VerifyReceipt emptyWorld sampleLedger "u" "receipt").outcome.code ≠ some 400 ∧
    ledgerGet (VerifyReceipt emptyWorld sampleLedger "u" "receipt").ledger "u"
      = some (receiptDoc "u" "") :=
  ⟨by decide, rfl, rfl, rfl, rfl, rfl, rfl, by decide,
   (empty_records_not_rejected emptyWorld sampleLedger "u" "receipt" emptyResponse
      (by decide) rfl rfl rfl rfl).2.1,
   (empty_records_not_rejected emptyWorld sampleLedger "u" "receipt" emptyResponse
      (by decide) rfl rfl rfl rfl).2.2.1,
   ((empty_records_not_rejected emptyWorld sampleLedger "u" "receipt" emptyResponse
      (by decide) rfl rfl rfl rfl).2.2.2 rfl rfl (by decide)).2⟩

/-- C4 fails as stated: with status 0, the expected bundle id and no purchase
record, the call reads the ledger, replaces the stored id `7` of user `u` by
the empty id and returns the verdict with code 200. -/
theorem empty_records_get_200 :
    emptyWorld.post = some emptyResponse ∧
    emptyResponse.Status = 0 ∧
    emptyResponse.Receipt.BundleID
      = emptyWorld.BUNDLE_ID ∧
    emptyResponse.Receipt.InApp = [] ∧
    (VerifyReceipt emptyWorld sampleLedger "u"
        "receipt").outcome = Outcome.returned successResult ∧
    (VerifyReceipt emptyWorld sampleLedger "u"
        "receipt").outcome.code ≠ some 400 ∧
    (VerifyReceipt emptyWorld sampleLedger "u"
        "receipt").storeOps
      = [StoreOp.get "u", StoreOp.set "u" (receiptDoc "u" "")] ∧
    ledgerGet sampleLedger "u" = some (receiptDoc "u" "7") ∧
    ledgerGet (VerifyReceipt emptyWorld sampleLedger "u"
        "receipt").ledger "u" = some (receiptDoc "u" "") := by
  refine ⟨rfl, rfl, rfl, rfl, ?_, ?_, ?_, ?_, ?_⟩ <;> decide

/-- C8 (as the code has it): for every input `VerifyReceipt` terminates, either
returning a verdict whose code is 200 or 400, or ending the process (by
`log.Fatal` or a panic).  The failure paths do not return a verdict: a
transport error of the first or of the retry request, an error of the store
`Get` or `Set`, and a duplicate redemption each end the process with
`log.Fatal`; past the ledger write the call ends with the verdict with code 200
or in the `log.Fatal` of the expiry check. -/
theorem verdict_or_abort (w : World) (ledger : Ledger) (uid data : String) :
    ((∃ v, (VerifyReceipt w ledger uid data).outcome = Outcome.returned v ∧
        (v.Code = 200 ∨ v.Code = 400)) ∨
      (VerifyReceipt w ledger uid data).outcome = Outcome.panicked ∨
      (∃ m, (VerifyReceipt w ledger uid data).outcome = Outcome.fatal m)) ∧
    (w.bootOk → w.post = none →
      (VerifyReceipt w ledger uid data).outcome
        = Outcome.fatal "Post request error occured.") ∧
    (w.bootOk → ∀ r, w.post = some r → r.Status = 21007 → w.postRetry = none →
      (VerifyReceipt w ledger uid data).outcome
        = Outcome.fatal "Post request error occured.") ∧
    (w.bootOk → ∀ r, w.post = some r → r.Status = 0 →
      r.Receipt.BundleID = w.BUNDLE_ID →
      (w.getErr = true →
        (VerifyReceipt w ledger uid data).outcome
          = Outcome.fatal "Faild to get transactionId") ∧
      (w.getErr = false →
        alreadyRegistered (ledgerGet ledger uid) (selectLatest r.Receipt.InApp).1 = true →
        (VerifyReceipt w ledger uid data).outcome
          = Outcome.fatal "This receipt is already registed.") ∧
      (w.getErr = false →
        alreadyRegistered (ledgerGet ledger uid) (selectLatest r.Receipt.InApp).1 = false →
        w.setErr = true →
        (VerifyReceipt w ledger uid data).outcome
          = Outcome.fatal "Failed to Add TransactionID.") ∧
      (w.getErr = false →
        alreadyRegistered (ledgerGet ledger uid) (selectLatest r.Receipt.InApp).1 = false →
        w.setErr = false →
        (VerifyReceipt w ledger uid data).outcome = Outcome.returned successResult ∨
        (VerifyReceipt w ledger uid data).outcome
          = Outcome.fatal "This receipt is out of date.")) := by
  refine ⟨?_, ?_, ?_, ?_⟩
  · by_cases h1 : w.dotenvErr = true
    · exact Or.inr (Or.inr ⟨"Error loading .env file", by simp [VerifyReceipt, h1]⟩)
    by_cases h2 : w.newAppErr = true
    · exact Or.inr (Or.inl (by simp [VerifyReceipt, h1, h2]))
    cases h3 : w.firestoreErr with
    | some e => exact Or.inr (Or.inr ⟨e, by simp [VerifyReceipt, h1, h2, h3]⟩)
    | none =>
      have hb : w.bootOk := ⟨by simpa using h1, by simpa using h2, h3⟩
      cases hp : w.post with
      | none =>
        exact Or.inr (Or.inr ⟨"Post request error occured.",
          by simp [VerifyReceipt, h1, h2, h3, hp]⟩)
      | some r =>
        rw [VerifyReceipt_of_response w ledger uid data r hb hp]
        split_ifs
        · rcases primaryPath_outcomes w ledger uid r [requestOf w data] with h | ⟨m, h⟩
          · exact Or.inl ⟨_, h, Or.inl rfl⟩
          · exact Or.inr (Or.inr ⟨m, h⟩)
        · exact Or.inl ⟨_, rfl, Or.inr rfl⟩
        · rcases retryPath_outcomes w ledger (requestOf w data) with h | h | ⟨m, h⟩
          · exact Or.inl ⟨_, h, Or.inl rfl⟩
          · exact Or.inl ⟨_, h, Or.inr rfl⟩
          · exact Or.inr (Or.inr ⟨m, h⟩)
        · exact Or.inl ⟨_, rfl, Or.inr rfl⟩
  · rintro ⟨h1, h2, h3⟩ hp
    simp [VerifyReceipt, h1, h2, h3, hp]
  · intro hb r hp h7 hp2
    have h0 : r.Status ≠ 0 := by rw [h7]; decide
    rw [VerifyReceipt_of_response w ledger uid data r hb hp, if_neg h0, if_pos h7]
    simp [retryPath, hp2]
  · intro hb r hp h0 hid
    rw [VerifyReceipt_of_response w ledger uid data r hb hp, if_pos h0, if_pos hid]
    refine ⟨?_, ?_, ?_, ?_⟩
    · intro hg
      simp [primaryPath, hg]
    · intro hg hd
      rw [primaryPath_duplicate w ledger uid r _ hg hd]
    · intro hg hn hs
      simp [primaryPath, hg, hn, hs]
    · intro hg hn hs
      exact (primaryPath_novel w ledger uid r _ hg hs hn).2.2.2

theorem verdict_or_abort_witness :
    purchaseWorld.bootOk ∧ purchaseWorld.post = some expiredResponse ∧
    purchaseWorld.getErr = false ∧
    alreadyRegistered (ledgerGet sampleLedger "v")
      (selectLatest expiredResponse.Receipt.InApp).1 = true ∧
    (VerifyReceipt purchaseWorld sampleLedger "v" "receipt").outcome
      = Outcome.fatal "This receipt is already registed." :=
  ⟨by decide, rfl, rfl, by decide,
   ((verdict_or_abort purchaseWorld sampleLedger "v" "receipt").2.2.2 (by decide)
      expiredResponse rfl rfl rfl).2.1 rfl (by decide)⟩

/-- C8 fails as stated: user `v` presents the receipt whose transaction `20`
is already stored for `v`; the call returns no verdict, neither with code 200
nor with code 400, but ends the process with `log.Fatal`. -/
theorem duplicate_ends_process :
    ledgerGet sampleLedger "v" = some (receiptDoc "v" "20") ∧
    (selectLatest expiredResponse.Receipt.InApp).1 = "20" ∧
    (VerifyReceipt purchaseWorld sampleLedger "v"
        "receipt").outcome = Outcome.fatal "This receipt is already registed." ∧
    (VerifyReceipt purchaseWorld sampleLedger "v"
        "receipt").outcome.code ≠ some 200 ∧
    (VerifyReceipt purchaseWorld sampleLedger "v"
        "receipt").outcome.code ≠ some 400 := by
  refine ⟨?_, ?_, ?_, ?_, ?_⟩ <;> decide

end Payment
